import Mathlib

/-!
Shallow embedding of the `next-form-action` library core:
  * the `ActionState` result record and `ActionParams` (src/types, all-optional
    revision used by `src/actions.ts`),
  * the `ActionResponse` / `ActionError` / `ActionSuccess` signal-exception
    classes (revision with payload supplied at construction time, whose
    3-argument `ActionError(message, payload, params)` constructor matches the
    call sites in `src/actions.ts`),
  * the handler wrapper `createAction` and the initial-state builder
    `createActionState` (src/actions.ts),
  * the client hook effect of `useAction` (src/hook.tsx) as an event-trace
    semantics over the JS event loop (synchronous segment first, microtasks
    after), with the single-slot callback registrations.
-/

namespace NextFormAction

/-- Form data: the submitted key/value pairs.  The wrapper never inspects it,
it is only threaded through, so an association list suffices. -/
abbrev FormData := List (String × String)

/-- `Record<string, string[]>` of per-field validation errors. -/
abbrev FormErrors := List (String × List String)

/-- `Record<string, unknown>` of caller-defined side payload.  The library
only ever copies it through verbatim, so the `unknown` values are modelled
as strings. -/
abbrev Extra := List (String × String)

/-- `ActionState` from src/types (the all-optional revision imported by
`src/actions.ts`): every field is optional (`none` models an absent /
`undefined` field). -/
structure ActionState where
  payload : Option FormData := none
  success : Option Bool := none
  message : Option String := none
  formErrors : Option FormErrors := none
  extra : Option Extra := none
  redirect : Option String := none
  refresh : Option Bool := none
deriving Repr, DecidableEq

/-- `ActionParams = Omit<ActionState, 'message' | 'success'>`: the parameter
bundle accepted by the signal helpers; it structurally lacks `success` and
`message`. -/
structure ActionParams where
  payload : Option FormData := none
  formErrors : Option FormErrors := none
  extra : Option Extra := none
  redirect : Option String := none
  refresh : Option Bool := none
deriving Repr, DecidableEq

/-- `createActionState(payload = new FormData(), params = {})` returns
`{ ...params, payload }`: the spread copies the params fields, then the
`payload` property overrides any payload carried by `params`; `success` and
`message` are never set because `ActionParams` omits them. -/
def createActionState (payload : FormData := []) (params : ActionParams := {}) : ActionState :=
  { payload := some payload
    success := none
    message := none
    formErrors := params.formErrors
    extra := params.extra
    redirect := params.redirect
    refresh := params.refresh }

/-- The `ActionResponse` class (revision with payload at construction).  It
extends `Error`, so its `message` property is a plain string: `super(message)`
with an `undefined` argument leaves the inherited empty string. -/
structure ActionResponse where
  message : String
  payload : FormData
  success : Option Bool
  formErrors : Option FormErrors := none
  extra : Option Extra := none
  redirect : Option String := none
  refresh : Option Bool := none
deriving Repr, DecidableEq

/-- The `ActionResponse` constructor: stores the payload, the success flag and
the four param fields; the `Error` superclass turns an `undefined` message
into the empty string. -/
def ActionResponse.make (message : Option String) (success : Option Bool)
    (payload : FormData) (params : ActionParams := {}) : ActionResponse :=
  { message := message.getD ""
    payload := payload
    success := success
    formErrors := params.formErrors
    extra := params.extra
    redirect := params.redirect
    refresh := params.refresh }

/-- `new ActionError(message, payload, params)`: an `ActionResponse` with
`success` fixed to `false`. -/
def ActionError.make (message : Option String) (payload : FormData)
    (params : ActionParams := {}) : ActionResponse :=
  ActionResponse.make message (some false) payload params

/-- `new ActionSuccess(message, payload, params)`: an `ActionResponse` with
`success` fixed to `true`. -/
def ActionSuccess.make (message : Option String) (payload : FormData)
    (params : ActionParams := {}) : ActionResponse :=
  ActionResponse.make message (some true) payload params

/-- `ActionResponse.toResponse()`: materializes the exception into an
`ActionState` record, copying every stored field. -/
def ActionResponse.toResponse (r : ActionResponse) : ActionState :=
  { payload := some r.payload
    success := r.success
    message := some r.message
    formErrors := r.formErrors
    extra := r.extra
    redirect := r.redirect
    refresh := r.refresh }

/-- The value of a `digest` property on a thrown object: a string, or some
value of another type. -/
inductive DigestField where
  | str (s : String)
  | nonString
deriving Repr, DecidableEq

/-- A thrown JS object that is not an `ActionResponse` instance: it may carry
a `digest` property, and `id` models its reference identity (two objects are
the same reference exactly when their `id`s coincide). -/
structure JsObject where
  digest : Option DigestField := none
  id : Nat := 0
deriving Repr, DecidableEq

/-- A JS thrown value as classified by the wrapper: an `ActionResponse`
instance, some other object, or a non-object (`null`, `undefined`, a
primitive; `id` again models identity). -/
inductive Thrown where
  | response (r : ActionResponse)
  | object (o : JsObject)
  | nonObject (id : Nat)
deriving Repr, DecidableEq

/-- Whether a thrown value is an `ActionResponse` instance
(`error instanceof ActionResponse`). -/
def Thrown.isResponse : Thrown → Bool
  | .response _ => true
  | _ => false

/-- JS `s.startsWith(pre)`, modelled on the character sequences of the two
strings (extensionally the prefix test on strings, stated over `List Char`
so that it evaluates by kernel reduction). -/
def jsStartsWith (s pre : String) : Bool := pre.data.isPrefixOf s.data

/-- The Next.js system-error test from src/actions.ts line 33:
`error && typeof error === 'object' && 'digest' in error &&
typeof error.digest === 'string' && error.digest.startsWith('NEXT_')`. -/
def isNextSystemError : Thrown → Bool
  | .object o =>
    match o.digest with
    | some (.str s) => jsStartsWith s "NEXT_"
    | _ => false
  | _ => false

/-- How one handler invocation behaves on a given `(state, formData)` pair:
it resolves with a record, calls the injected `error` or `success` function
(with a message and optional params), or throws some other value. -/
inductive HandlerOutcome where
  | ok (result : ActionState)
  | callError (message : Option String) (params : ActionParams)
  | callSuccess (message : Option String) (params : ActionParams)
  | raise (e : Thrown)
deriving Repr, DecidableEq

/-- A user handler, as observed by the wrapper: its behaviour on each
`(state, formData)` pair. -/
abbrev Handler := ActionState → FormData → HandlerOutcome

/-- The injected `error` function (src/actions.ts lines 19-21): it throws
`new ActionError(message, formData, params)`.  Its result type
`Except Thrown Empty` is the `never` return type: no normal return exists. -/
def raiseError (formData : FormData) (message : Option String)
    (params : ActionParams := {}) : Except Thrown Empty :=
  .error (.response (ActionError.make message formData params))

/-- The injected `success` function (src/actions.ts lines 22-24): it throws
`new ActionSuccess(message, formData, params)`. -/
def raiseSuccess (formData : FormData) (message : Option String)
    (params : ActionParams := {}) : Except Thrown Empty :=
  .error (.response (ActionSuccess.make message formData params))

/-- Running `await handler(state, formData, error, success)`: a normal
resolution is an `Except.ok`, a call to an injected signal function throws the
exception that function builds from the current `formData`, and any other
throw propagates. -/
def runHandler (handler : Handler) (state : ActionState) (formData : FormData) :
    Except Thrown ActionState :=
  match handler state formData with
  | .ok r => .ok r
  | .callError m p => (raiseError formData m p).map Empty.elim
  | .callSuccess m p => (raiseSuccess formData m p).map Empty.elim
  | .raise e => .error e

/-- Outcome of one wrapped-handler invocation: `result` is `ok` when the
promise resolves with a record and `error` when it rejects (re-throws), and
`log` lists the `console.error` calls, each with the context label and the
logged error. -/
structure WrapResult where
  result : Except Thrown ActionState
  log : List (String × Thrown)
deriving Repr

/-- The generic failure message of src/actions.ts line 38. -/
def unexpectedMessage : String := "An unexpected error occurred. Please try again."

/-- `createAction(context, handler)` (src/actions.ts lines 8-41): the wrapped
handler awaits the user handler; a caught `ActionResponse` instance becomes
`error.toResponse()`; a caught object whose string `digest` starts with
`NEXT_` is re-thrown; anything else caught is logged with the context label
and becomes the generic failure record built from the current `formData`. -/
def createAction (context : String) (handler : Handler)
    (state : ActionState) (formData : FormData) : WrapResult :=
  match runHandler handler state formData with
  | .ok r => { result := .ok r, log := [] }
  | .error e =>
    match e with
    | .response r => { result := .ok r.toResponse, log := [] }
    | e =>
      if isNextSystemError e then
        { result := .error e, log := [] }
      else
        { result := .ok ((ActionError.make (some unexpectedMessage) formData).toResponse)
          log := [(context, e)] }

/-! ## Client state binding (src/hook.tsx)

The `useEffect` body of `useAction` is modelled as an event-trace semantics
over the JS event loop.  The effect body is synchronous: it starts the async
helper `executeCallback()` WITHOUT awaiting it, then runs `router.push` /
`router.refresh`.  Inside `executeCallback`, the registered callback is
invoked synchronously; the `await` of its result suspends the helper, so
everything after that `await` (an asynchronous callback finishing, and the
clearing of the registration slot) runs in microtasks, strictly after the
synchronous remainder of the effect body. -/

/-- Which one-shot callback fired. -/
inductive CbKind where
  | success
  | error
deriving Repr, DecidableEq

/-- A registered callback, abstracted to the one property the scheduling
depends on: whether it returns a promise that settles later (`isAsync`) or
returns synchronously. -/
structure Cb where
  isAsync : Bool
deriving Repr, DecidableEq

/-- The two single-slot callback refs of `useAction`
(`onSuccessCallbackRef`, `onErrorCallbackRef`). -/
structure HookCallbacks where
  onSuccess : Option Cb := none
  onError : Option Cb := none
deriving Repr, DecidableEq

/-- `onSuccess(callback)`: overwrite the success slot. -/
def registerOnSuccess (cb : Cb) (cbs : HookCallbacks) : HookCallbacks :=
  { cbs with onSuccess := some cb }

/-- `onError(callback)`: overwrite the error slot. -/
def registerOnError (cb : Cb) (cbs : HookCallbacks) : HookCallbacks :=
  { cbs with onError := some cb }

/-- JS truthiness of an optional string (`state.message`, `state.redirect`):
truthy exactly when present and non-empty. -/
def truthyStr : Option String → Bool
  | some s => s != ""
  | none => false

/-- An observable side effect of one effect run, in execution order. -/
inductive Ev where
  | cbInvoked (k : CbKind) (st : ActionState)
  | cbCompleted (k : CbKind)
  | cbCleared (k : CbKind)
  | push (path : String)
  | refreshView
deriving Repr, DecidableEq

/-- Which callback the `executeCallback` conditional fires on state `st`:
the success slot when `state.success === true`, else the error slot when
`state.success === false` and `state.message` is truthy. -/
def pickCallback (cbs : HookCallbacks) (st : ActionState) : Option (CbKind × Cb) :=
  if st.success = some true then
    cbs.onSuccess.map (fun cb => (CbKind.success, cb))
  else if st.success = some false ∧ truthyStr st.message then
    cbs.onError.map (fun cb => (CbKind.error, cb))
  else
    none

/-- The navigation statements at the end of the effect body:
`if (state.redirect) router.push(state.redirect); if (state.refresh)
router.refresh();`. -/
def navEvents (st : ActionState) : List Ev :=
  (if truthyStr st.redirect then [Ev.push (st.redirect.getD "")] else [])
    ++ (if st.refresh.getD false then [Ev.refreshView] else [])

/-- Clear the slot of the callback that fired. -/
def clearFired (cbs : HookCallbacks) : Option (CbKind × Cb) → HookCallbacks
  | some (.success, _) => { cbs with onSuccess := none }
  | some (.error, _) => { cbs with onError := none }
  | none => cbs

/-- One run of the `useEffect` body on state `st`: the ordered trace of its
observable side effects, and the callback slots after all microtasks drain.
A fired synchronous callback completes during its invocation, before the
navigation statements; a fired asynchronous callback completes in a
microtask, after them; the slot clearing sits after the helper's `await`,
so it is always a microtask. -/
def effectTrace (cbs : HookCallbacks) (st : ActionState) : List Ev × HookCallbacks :=
  match pickCallback cbs st with
  | some (k, cb) =>
    if cb.isAsync then
      (Ev.cbInvoked k st :: (navEvents st ++ [Ev.cbCompleted k, Ev.cbCleared k]),
        clearFired cbs (some (k, cb)))
    else
      (Ev.cbInvoked k st :: Ev.cbCompleted k :: (navEvents st ++ [Ev.cbCleared k]),
        clearFired cbs (some (k, cb)))
  | none => (navEvents st, cbs)

/-- A sequence of effect runs (one per state transition): the concatenated
trace and the final callback slots. -/
def runEffects (cbs : HookCallbacks) : List ActionState → List Ev × HookCallbacks
  | [] => ([], cbs)
  | st :: rest =>
    let r := effectTrace cbs st
    let r2 := runEffects r.2 rest
    (r.1 ++ r2.1, r2.2)

/-- Event classifiers for ordering statements. -/
def isCbInvoked : Ev → Bool
  | .cbInvoked _ _ => true
  | _ => false

/-- Classifier: a success-callback invocation. -/
def isSuccessInvoked : Ev → Bool
  | .cbInvoked .success _ => true
  | _ => false

/-- Classifier: an error-callback invocation. -/
def isErrorInvoked : Ev → Bool
  | .cbInvoked .error _ => true
  | _ => false

/-- Classifier: a callback completion. -/
def isCbCompleted : Ev → Bool
  | .cbCompleted _ => true
  | _ => false

/-- Classifier: a `router.push` call. -/
def isPush : Ev → Bool
  | .push _ => true
  | _ => false

/-- Classifier: a `router.refresh` call. -/
def isRefreshView : Ev → Bool
  | .refreshView => true
  | _ => false

/-- Classifier: a navigation side effect. -/
def isNav (e : Ev) : Bool := isPush e || isRefreshView e

/-- `allBefore p q tr` holds when every `p`-event of the trace occurs
strictly before every `q`-event: no `p`-event at or after a `q`-event. -/
def allBefore (p q : Ev → Bool) : List Ev → Bool
  | [] => true
  | e :: rest => (if q e then rest.all (fun x => !p x) else true) && allBefore p q rest

/-! ## Derived predicates and concrete fixtures -/

/-- A wrapped-handler invocation rejects only with recognized host control
signals: its `result` is either a resolved record or a re-thrown error whose
string `digest` starts with `NEXT_`. -/
def onlyNextEscapes (w : WrapResult) : Bool :=
  match w.result with
  | .ok _ => true
  | .error e => isNextSystemError e

/-- The generic failure record the wrapper returns for an unexpected error
caught while processing `formData`. -/
def genericFailure (formData : FormData) : ActionState :=
  { payload := some formData
    success := some false
    message := some unexpectedMessage
    formErrors := none
    extra := none
    redirect := none
    refresh := none }

/-- Concrete form data used by witnesses. -/
def sampleForm : FormData := [("username", "ab")]

/-- Concrete signal params used by witnesses. -/
def sampleParams : ActionParams :=
  { formErrors := some [("email", ["Email is required"])], redirect := some "/x" }

/-- A handler that always calls the injected `error` function. -/
def handlerCallError : Handler :=
  fun _ _ => .callError (some "Please fix the errors below") sampleParams

/-- A handler that always calls the injected `success` function. -/
def handlerCallSuccess : Handler :=
  fun _ _ => .callSuccess (some "ok") sampleParams

/-- A handler that resolves normally with a record. -/
def handlerOk : Handler :=
  fun _ _ => .ok { success := some true, message := some "done" }

/-- A handler that resolves normally with a record carrying no payload. -/
def handlerNoPayload : Handler :=
  fun _ _ => .ok { success := some true }

/-- A thrown Next.js control object (string digest with the `NEXT_`
marker). -/
def nextObj : JsObject := { digest := some (.str "NEXT_REDIRECT"), id := 7 }

/-- A handler that throws the Next.js control object. -/
def handlerRaiseNext : Handler := fun _ _ => .raise (.object nextObj)

/-- A thrown plain runtime error object (no digest). -/
def plainErrObj : JsObject := { digest := none, id := 3 }

/-- A handler that throws the plain runtime error. -/
def handlerRaisePlain : Handler := fun _ _ => .raise (.object plainErrObj)

/-- The payload of the record a wrapped-handler invocation resolved with
(`none` when the invocation re-threw instead of resolving). -/
def resolvedPayload (w : WrapResult) : Option (Option FormData) :=
  match w.result with
  | .ok r => some r.payload
  | .error _ => none

/-- The side-effect ordering asserted by the spec for one effect run: any
fired callback is invoked AND completes before any navigation, and
`router.push` precedes `router.refresh`. -/
def callbackAwaitedOrder (tr : List Ev) : Bool :=
  allBefore isCbInvoked isNav tr
    && allBefore isCbCompleted isNav tr
    && allBefore isPush isRefreshView tr

/-- Callback slots holding one asynchronous success callback. -/
def cbsAsync : HookCallbacks := { onSuccess := some { isAsync := true } }

/-- Callback slots holding one synchronous success callback. -/
def cbsSync : HookCallbacks := { onSuccess := some { isAsync := false } }

/-- A success state carrying both navigation hints. -/
def stRedirect : ActionState :=
  { success := some true, message := some "ok",
    redirect := some "/x", refresh := some true }

/-! ## Theorems -/

/-- C1: for every handler invocation processing formData `F` in which the
handler calls the injected error (resp. success) function with message `M`
and params `P`, the wrapped handler resolves to a record with
`success = false` (resp. `true`), `message = M`, the `formErrors`, `extra`,
`redirect` and `refresh` fields of `P` copied verbatim, and
`payload = F`. -/
theorem c1_signal_result (context : String) (handler : Handler)
    (st : ActionState) (F : FormData) (M : String) (P : ActionParams) :
    (handler st F = .callError (some M) P →
      (createAction context handler st F).result =
        .ok { payload := some F, success := some false, message := some M,
              formErrors := P.formErrors, extra := P.extra,
              redirect := P.redirect, refresh := P.refresh }) ∧
    (handler st F = .callSuccess (some M) P →
      (createAction context handler st F).result =
        .ok { payload := some F, success := some true, message := some M,
              formErrors := P.formErrors, extra := P.extra,
              redirect := P.redirect, refresh := P.refresh }) := by
  constructor <;> intro h <;>
    simp [createAction, runHandler, h, raiseError, raiseSuccess, Except.map,
      ActionError.make, ActionSuccess.make, ActionResponse.make,
      ActionResponse.toResponse]

/-- Witness for C1 at concrete inputs: the error and success signal cases
evaluated on `sampleForm` and `sampleParams`. -/
theorem c1_signal_result_witness :
    (createAction "signup" handlerCallError {} sampleForm).result =
      .ok { payload := some sampleForm, success := some false,
            message := some "Please fix the errors below",
            formErrors := sampleParams.formErrors, extra := sampleParams.extra,
            redirect := sampleParams.redirect, refresh := sampleParams.refresh } ∧
    (createAction "signup" handlerCallSuccess {} sampleForm).result =
      .ok { payload := some sampleForm, success := some true,
            message := some "ok",
            formErrors := sampleParams.formErrors, extra := sampleParams.extra,
            redirect := sampleParams.redirect, refresh := sampleParams.refresh } :=
  ⟨(c1_signal_result "signup" handlerCallError {} sampleForm
      "Please fix the errors below" sampleParams).1 rfl,
   (c1_signal_result "signup" handlerCallSuccess {} sampleForm
      "ok" sampleParams).2 rfl⟩

/-- C2: for every handler invocation processing formData `F` that rejects
with a value that is neither an `ActionResponse` instance nor a recognized
Next.js control signal, the wrapped handler resolves to
`success = false`, `message = "An unexpected error occurred. Please try
again."`, `payload = F`, with `formErrors`, `extra`, `redirect`, `refresh`
all absent, and the original error is logged exactly once with the context
label. -/
theorem c2_unexpected_result (context : String) (handler : Handler)
    (st : ActionState) (F : FormData) (e : Thrown)
    (h1 : handler st F = .raise e)
    (h2 : e.isResponse = false)
    (h3 : isNextSystemError e = false) :
    (createAction context handler st F).result = .ok (genericFailure F) ∧
    (createAction context handler st F).log = [(context, e)] := by
  cases e with
  | response r => simp [Thrown.isResponse] at h2
  | object o =>
    simp [createAction, runHandler, h1, h3, genericFailure,
      ActionError.make, ActionResponse.make, ActionResponse.toResponse]
  | nonObject id =>
    simp [createAction, runHandler, h1, h3, genericFailure,
      ActionError.make, ActionResponse.make, ActionResponse.toResponse]

/-- Witness for C2: a handler throwing a plain object (no digest). -/
theorem c2_unexpected_result_witness :
    (createAction "signup" handlerRaisePlain {} sampleForm).result =
      .ok (genericFailure sampleForm) ∧
    (createAction "signup" handlerRaisePlain {} sampleForm).log =
      [("signup", .object plainErrObj)] :=
  c2_unexpected_result "signup" handlerRaisePlain {} sampleForm
    (.object plainErrObj) rfl rfl rfl

/-- C3: for every handler invocation that rejects with a non-signal object
carrying a string `digest` starting with `NEXT_`, the wrapped handler
re-throws that identical object (identity modelled by the object's `id`)
and does not resolve to a record (the result is a rejection, and nothing is
logged). -/
theorem c3_next_rethrow (context : String) (handler : Handler)
    (st : ActionState) (F : FormData) (o : JsObject) (s : String)
    (h1 : handler st F = .raise (.object o))
    (h2 : o.digest = some (.str s))
    (h3 : jsStartsWith s "NEXT_" = true) :
    (createAction context handler st F).result = .error (.object o) ∧
    (createAction context handler st F).log = [] := by
  simp [createAction, runHandler, h1, isNextSystemError, h2, h3]

/-- Witness for C3: a handler throwing an object with digest
`NEXT_REDIRECT`. -/
theorem c3_next_rethrow_witness :
    (createAction "signup" handlerRaiseNext {} sampleForm).result =
      .error (.object nextObj) ∧
    (createAction "signup" handlerRaiseNext {} sampleForm).log = [] :=
  c3_next_rethrow "signup" handlerRaiseNext {} sampleForm nextObj
    "NEXT_REDIRECT" rfl rfl (by decide)

/-- C4: for every handler invocation that resolves normally, the wrapped
handler resolves to exactly the handler's resolved value, unchanged. -/
theorem c4_passthrough (context : String) (handler : Handler)
    (st : ActionState) (F : FormData) (r : ActionState)
    (h : handler st F = .ok r) :
    (createAction context handler st F).result = .ok r := by
  simp [createAction, runHandler, h]

/-- Witness for C4: a handler resolving with a concrete record. -/
theorem c4_passthrough_witness :
    (createAction "signup" handlerOk {} sampleForm).result =
      .ok { success := some true, message := some "done" } :=
  c4_passthrough "signup" handlerOk {} sampleForm
    { success := some true, message := some "done" } rfl

/-- C8: for every possible behaviour of the user handler, the wrapped
handler either resolves to a record or re-throws a recognized Next.js
control signal; it never rejects with a signaled outcome or an unexpected
failure. -/
theorem c8_only_next_escapes (context : String) (handler : Handler)
    (st : ActionState) (F : FormData) :
    onlyNextEscapes (createAction context handler st F) = true := by
  unfold createAction runHandler
  cases h : handler st F with
  | ok r => simp [onlyNextEscapes]
  | callError m p => simp [onlyNextEscapes, raiseError, Except.map]
  | callSuccess m p => simp [onlyNextEscapes, raiseSuccess, Except.map]
  | raise e =>
    cases e with
    | response r => simp [onlyNextEscapes]
    | object o =>
      by_cases hn : isNextSystemError (.object o) = true <;>
        simp [onlyNextEscapes, hn]
    | nonObject id =>
      by_cases hn : isNextSystemError (.nonObject id) = true <;>
        simp [onlyNextEscapes, hn]

/-- C9: the injected `error` function never returns — for every message and
params it throws the error-signal exception built from the current formData —
and symmetrically for `success`; consequently any continuation sequenced
after a call to either function is never executed. -/
theorem c9_never_returns (F : FormData) (M : Option String) (P : ActionParams)
    (k k' : Empty → Except Thrown ActionState) :
    raiseError F M P = .error (.response (ActionError.make M F P)) ∧
    raiseSuccess F M P = .error (.response (ActionSuccess.make M F P)) ∧
    (raiseError F M P >>= k) = .error (.response (ActionError.make M F P)) ∧
    (raiseSuccess F M P >>= k') = .error (.response (ActionSuccess.make M F P)) :=
  ⟨rfl, rfl, rfl, rfl⟩

/-- Helper: the navigation events of one effect run satisfy any predicate
that holds of `push` and `refreshView` events. -/
theorem navEvents_all_not (p : Ev → Bool) (st : ActionState)
    (hpush : ∀ s, p (Ev.push s) = false) (href : p Ev.refreshView = false) :
    (navEvents st).all (fun e => !p e) = true := by
  unfold navEvents
  split <;> split <;> simp [hpush, href]

/-- Helper: membership form of `navEvents_all_not`. -/
theorem navEvents_not_mem (p : Ev → Bool) (st : ActionState)
    (hpush : ∀ s, p (Ev.push s) = false) (href : p Ev.refreshView = false) :
    ∀ x ∈ navEvents st, p x = false := by
  unfold navEvents
  split <;> split <;> simp [hpush, href]

/-- C5 counterexample: a handler that resolves normally with a record whose
payload is absent is passed through unchanged, so the record returned to the
client does not carry the formData of the submission that produced it. -/
theorem c5_counterexample :
    resolvedPayload (createAction "signup" handlerNoPayload {} sampleForm) =
      some none ∧
    some (none : Option FormData) ≠ some (some sampleForm) := by
  constructor
  · rfl
  · simp

/-- C5 amended: the payload of the record returned to the client equals the
formData of the most recent submission whenever the handler raised a signal
through the injected functions or threw an unexpected (non-control-signal)
error; when the handler returns a record directly, the record — and hence
its payload — is whatever the handler built. -/
theorem c5_amended_payload (context : String) (handler : Handler)
    (st : ActionState) (F : FormData) :
    (∀ m p, handler st F = .callError m p →
      resolvedPayload (createAction context handler st F) = some (some F)) ∧
    (∀ m p, handler st F = .callSuccess m p →
      resolvedPayload (createAction context handler st F) = some (some F)) ∧
    (∀ e, handler st F = .raise e → e.isResponse = false →
      isNextSystemError e = false →
      resolvedPayload (createAction context handler st F) = some (some F)) := by
  refine ⟨?_, ?_, ?_⟩
  · intro m p h
    simp [createAction, runHandler, h, raiseError, Except.map, resolvedPayload,
      ActionError.make, ActionResponse.make, ActionResponse.toResponse]
  · intro m p h
    simp [createAction, runHandler, h, raiseSuccess, Except.map, resolvedPayload,
      ActionSuccess.make, ActionResponse.make, ActionResponse.toResponse]
  · intro e h h2 h3
    cases e with
    | response r => simp [Thrown.isResponse] at h2
    | object o =>
      simp [createAction, runHandler, h, h3, resolvedPayload,
        ActionError.make, ActionResponse.make, ActionResponse.toResponse]
    | nonObject id =>
      simp [createAction, runHandler, h, h3, resolvedPayload,
        ActionError.make, ActionResponse.make, ActionResponse.toResponse]

/-- Witness for C5 amended: the error-signal and unexpected-error cases at
concrete inputs. -/
theorem c5_amended_payload_witness :
    resolvedPayload (createAction "signup" handlerCallError {} sampleForm) =
      some (some sampleForm) ∧
    resolvedPayload (createAction "signup" handlerRaisePlain {} sampleForm) =
      some (some sampleForm) :=
  ⟨(c5_amended_payload "signup" handlerCallError {} sampleForm).1
      (some "Please fix the errors below") sampleParams rfl,
   (c5_amended_payload "signup" handlerRaisePlain {} sampleForm).2.2
      (.object plainErrObj) rfl rfl rfl⟩

/-- C10: the initial record built by `createActionState` has `success` and
`message` absent (the params type omits them), so on the first effect run
with that state neither callback branch can fire, whatever callbacks are
registered. -/
theorem c10_initial_state_no_fire (p : FormData) (params : ActionParams)
    (cbs : HookCallbacks) :
    (createActionState p params).success = none ∧
    (createActionState p params).message = none ∧
    pickCallback cbs (createActionState p params) = none ∧
    ((effectTrace cbs (createActionState p params)).1.all
      (fun e => !isCbInvoked e)) = true := by
  refine ⟨rfl, rfl, ?_, ?_⟩
  · simp [pickCallback, createActionState]
  · have hp : pickCallback cbs (createActionState p params) = none := by
      simp [pickCallback, createActionState]
    simp only [effectTrace, hp]
    exact navEvents_all_not isCbInvoked _ (fun s => rfl) rfl

/-- C6 counterexample: with an asynchronous success callback registered and a
state carrying both navigation hints, the effect run invokes the callback,
then performs `router.push` and `router.refresh`, and only afterwards does
the callback complete — so the callback is NOT awaited to completion before
navigation, refuting the claimed ordering. -/
theorem c6_counterexample :
    (effectTrace cbsAsync stRedirect).1 =
      [Ev.cbInvoked .success stRedirect, Ev.push "/x", Ev.refreshView,
       Ev.cbCompleted .success, Ev.cbCleared .success] ∧
    callbackAwaitedOrder (effectTrace cbsAsync stRedirect).1 = false := by
  constructor <;> rfl

/-- C6 amended: on every effect run, a fired callback is invoked (with the
new state) before any navigation side effect, and `router.push` runs
strictly before `router.refresh`; when the fired callback is synchronous it
also completes before navigation, but an asynchronous callback completes
only after the navigation side effects, because the effect body does not
await `executeCallback()`. -/
theorem c6_amended_order (cbs : HookCallbacks) (st : ActionState) :
    allBefore isCbInvoked isNav (effectTrace cbs st).1 = true ∧
    allBefore isPush isRefreshView (effectTrace cbs st).1 = true ∧
    (∀ k cb, pickCallback cbs st = some (k, cb) → cb.isAsync = false →
      allBefore isCbCompleted isNav (effectTrace cbs st).1 = true) := by
  rcases hp : pickCallback cbs st with _ | ⟨k0, b0⟩
  · by_cases h1 : truthyStr st.redirect <;> by_cases h2 : st.refresh.getD false <;>
      simp [effectTrace, hp, navEvents, h1, h2, allBefore, isCbInvoked, isNav,
        isPush, isRefreshView, isCbCompleted]
  · rcases b0 with ⟨b⟩
    cases b <;> by_cases h1 : truthyStr st.redirect <;>
      by_cases h2 : st.refresh.getD false <;>
      simp [effectTrace, hp, navEvents, h1, h2, allBefore, isCbInvoked, isNav,
        isPush, isRefreshView, isCbCompleted]

/-- Witness for C6 amended: a synchronous success callback with both
navigation hints set — all three ordering clauses evaluated concretely. -/
theorem c6_amended_order_witness :
    allBefore isCbInvoked isNav (effectTrace cbsSync stRedirect).1 = true ∧
    allBefore isPush isRefreshView (effectTrace cbsSync stRedirect).1 = true ∧
    allBefore isCbCompleted isNav (effectTrace cbsSync stRedirect).1 = true :=
  ⟨(c6_amended_order cbsSync stRedirect).1,
   (c6_amended_order cbsSync stRedirect).2.1,
   (c6_amended_order cbsSync stRedirect).2.2 .success { isAsync := false } rfl rfl⟩

/-- Helper: firing the success callback requires it to be registered in the
success slot. -/
theorem pickCallback_success_slot (cbs : HookCallbacks) (st : ActionState)
    (cb : Cb) (h : pickCallback cbs st = some (.success, cb)) :
    cbs.onSuccess = some cb := by
  unfold pickCallback at h
  split at h
  · cases hs : cbs.onSuccess <;> simp [hs] at h
    simp [h]
  · split at h
    · cases hs : cbs.onError <;> simp [hs] at h
    · simp at h

/-- Helper: firing the error callback requires it to be registered in the
error slot. -/
theorem pickCallback_error_slot (cbs : HookCallbacks) (st : ActionState)
    (cb : Cb) (h : pickCallback cbs st = some (.error, cb)) :
    cbs.onError = some cb := by
  unfold pickCallback at h
  split at h
  · cases hs : cbs.onSuccess <;> simp [hs] at h
  · split at h
    · cases hs : cbs.onError <;> simp [hs] at h
      simp [h]
    · simp at h

/-- Helper: with an empty success slot, an effect run invokes no success
callback and leaves the slot empty. -/
theorem effectTrace_no_success (cbs : HookCallbacks) (st : ActionState)
    (h : cbs.onSuccess = none) :
    ((effectTrace cbs st).1.all (fun e => !isSuccessInvoked e)) = true ∧
    (effectTrace cbs st).2.onSuccess = none := by
  have hnav : (navEvents st).all (fun e => !isSuccessInvoked e) = true :=
    navEvents_all_not isSuccessInvoked st (fun s => rfl) rfl
  rcases hp : pickCallback cbs st with _ | ⟨k, cb⟩
  · exact ⟨by simpa [effectTrace, hp] using hnav, by simp [effectTrace, hp, h]⟩
  · have hk : k = .error := by
      cases k
      · have := pickCallback_success_slot cbs st cb hp
        rw [h] at this
        exact absurd this (by simp)
      · rfl
    subst hk
    rcases cb with ⟨b⟩
    cases b <;>
      refine ⟨?_, by simp [effectTrace, hp, clearFired, h]⟩ <;>
      · simp [effectTrace, hp, List.all_append, isSuccessInvoked]
        exact navEvents_not_mem isSuccessInvoked st (fun s => rfl) rfl

/-- Helper: with an empty error slot, an effect run invokes no error
callback and leaves the slot empty. -/
theorem effectTrace_no_error (cbs : HookCallbacks) (st : ActionState)
    (h : cbs.onError = none) :
    ((effectTrace cbs st).1.all (fun e => !isErrorInvoked e)) = true ∧
    (effectTrace cbs st).2.onError = none := by
  have hnav : (navEvents st).all (fun e => !isErrorInvoked e) = true :=
    navEvents_all_not isErrorInvoked st (fun s => rfl) rfl
  rcases hp : pickCallback cbs st with _ | ⟨k, cb⟩
  · exact ⟨by simpa [effectTrace, hp] using hnav, by simp [effectTrace, hp, h]⟩
  · have hk : k = .success := by
      cases k
      · rfl
      · have := pickCallback_error_slot cbs st cb hp
        rw [h] at this
        exact absurd this (by simp)
    subst hk
    rcases cb with ⟨b⟩
    cases b <;>
      refine ⟨?_, by simp [effectTrace, hp, clearFired, h]⟩ <;>
      · simp [effectTrace, hp, List.all_append, isErrorInvoked]
        exact navEvents_not_mem isErrorInvoked st (fun s => rfl) rfl

/-- Helper: with an empty success slot, no sequence of further effect runs
ever invokes a success callback, and the slot stays empty. -/
theorem runEffects_no_success (sts : List ActionState) :
    ∀ cbs : HookCallbacks, cbs.onSuccess = none →
      ((runEffects cbs sts).1.all (fun e => !isSuccessInvoked e)) = true ∧
      (runEffects cbs sts).2.onSuccess = none := by
  induction sts with
  | nil => exact fun cbs h => ⟨rfl, h⟩
  | cons st rest ih =>
    intro cbs h
    have h1 := effectTrace_no_success cbs st h
    have h2 := ih (effectTrace cbs st).2 h1.2
    exact ⟨by simp [runEffects, List.all_append, h1.1, h2.1],
      by simpa [runEffects] using h2.2⟩

/-- Helper: with an empty error slot, no sequence of further effect runs
ever invokes an error callback, and the slot stays empty. -/
theorem runEffects_no_error (sts : List ActionState) :
    ∀ cbs : HookCallbacks, cbs.onError = none →
      ((runEffects cbs sts).1.all (fun e => !isErrorInvoked e)) = true ∧
      (runEffects cbs sts).2.onError = none := by
  induction sts with
  | nil => exact fun cbs h => ⟨rfl, h⟩
  | cons st rest ih =>
    intro cbs h
    have h1 := effectTrace_no_error cbs st h
    have h2 := ih (effectTrace cbs st).2 h1.2
    exact ⟨by simp [runEffects, List.all_append, h1.1, h2.1],
      by simpa [runEffects] using h2.2⟩

/-- C7: once a success (resp. error) callback fires on an effect run, its
slot is cleared and it is not invoked again on any sequence of subsequent
effect runs without a new registration; and registering a callback replaces
any unconsumed previous one — last registration wins. -/
theorem c7_callback_one_shot :
    (∀ cbs st cb (sts : List ActionState),
      pickCallback cbs st = some (.success, cb) →
      (effectTrace cbs st).2.onSuccess = none ∧
      ((runEffects (effectTrace cbs st).2 sts).1.all
        (fun e => !isSuccessInvoked e)) = true) ∧
    (∀ cbs st cb (sts : List ActionState),
      pickCallback cbs st = some (.error, cb) →
      (effectTrace cbs st).2.onError = none ∧
      ((runEffects (effectTrace cbs st).2 sts).1.all
        (fun e => !isErrorInvoked e)) = true) ∧
    (∀ (cbs : HookCallbacks) (cb cb' : Cb),
      registerOnSuccess cb (registerOnSuccess cb' cbs) = registerOnSuccess cb cbs ∧
      (registerOnSuccess cb cbs).onSuccess = some cb ∧
      registerOnError cb (registerOnError cb' cbs) = registerOnError cb cbs ∧
      (registerOnError cb cbs).onError = some cb) := by
  refine ⟨?_, ?_, ?_⟩
  · intro cbs st cb sts hp
    have hclear : (effectTrace cbs st).2.onSuccess = none := by
      rcases cb with ⟨b⟩
      cases b <;> simp [effectTrace, hp, clearFired]
    exact ⟨hclear, (runEffects_no_success sts _ hclear).1⟩
  · intro cbs st cb sts hp
    have hclear : (effectTrace cbs st).2.onError = none := by
      rcases cb with ⟨b⟩
      cases b <;> simp [effectTrace, hp, clearFired]
    exact ⟨hclear, (runEffects_no_error sts _ hclear).1⟩
  · exact fun cbs cb cb' => ⟨rfl, rfl, rfl, rfl⟩

/-- Witness for C7: a synchronous success callback fires on `stRedirect`,
its slot is cleared, and a further effect run on the same state invokes no
success callback. -/
theorem c7_callback_one_shot_witness :
    (effectTrace cbsSync stRedirect).2.onSuccess = none ∧
    ((runEffects (effectTrace cbsSync stRedirect).2 [stRedirect]).1.all
      (fun e => !isSuccessInvoked e)) = true :=
  c7_callback_one_shot.1 cbsSync stRedirect { isAsync := false } [stRedirect] rfl

end NextFormAction
